import Mathlib

/-!
Shallow embedding of `bootstrap.py` (LinkLab-2025), a self-bootstrapping
launcher: fast-path import check, venv provisioning, integrity verification,
dependency installation, and process handoff.

Modelling conventions:
* Paths are strings; `Path.__truediv__` is string join with "/".
* The filesystem is an existence oracle `FS : String → Bool`; `venv.create`
  updates it (the created directory and its interpreter / pip executables
  come to exist).
* Nondeterministic inputs (platform, argv, environ, in-process import
  results, subprocess exit codes) live in a `World` record.
* Observable side effects are accumulated in a `List Effect` trace;
  process-terminating control flow (`sys.exit`, `os.execv`, uncaught
  exceptions) is an `Outcome`.
* `subprocess.run` raises `FileNotFoundError` (an `OSError`) when the
  executable does not exist; with `check=True` a non-zero exit status
  raises `CalledProcessError`.
-/

/-- Result of `__import__(pkg)` in the current process:
success, an `ImportError` (covering its subclasses), or some other
exception (identified by a name). -/
inductive ImpRes where
  | ok : ImpRes
  | importError : ImpRes
  | raising (name : String) : ImpRes
deriving DecidableEq, Repr

/-- Python exceptions that the bootstrap code can raise or propagate. -/
inductive PyExc where
  | calledProcessError (code : Nat) (argv : List String) : PyExc
  | osError (path : String) : PyExc
  | otherError (pkg : String) (name : String) : PyExc
deriving DecidableEq, Repr

/-- Observable side effects, in order of occurrence. -/
inductive Effect where
  | importAttempt (pkg : String) : Effect
  | stat (path : String) : Effect
  | createVenv (dir : String) : Effect
  | spawn (argv : List String) (envv : Option (List (String × String)))
      (devnullStreams : Bool) : Effect
  | printOut (msg : String) : Effect
  | printErr (msg : String) : Effect
deriving DecidableEq, Repr

/-- How a run of one of the bootstrap functions ends. -/
inductive Outcome (α : Type) where
  | ret (a : α) : Outcome α
  | exited (code : Nat) : Outcome α
  | execed (path : String) (args : List String)
      (envv : List (String × String)) : Outcome α
  | uncaught (e : PyExc) : Outcome α
deriving DecidableEq, Repr

/-- Existence oracle for filesystem paths. -/
def FS : Type := String → Bool

/-- Ambient process state and oracles for external behaviour. -/
structure World where
  platform : String
  argv : List String
  environ : List (String × String)
  rootDir : String
  importRes : String → ImpRes
  spawnCode : List String → Nat

/-- Python `dict.get(k)` on the environment (association list, first match). -/
def getEnv (env : List (String × String)) (k : String) : Option String :=
  match env.find? (fun kv => kv.1 == k) with
  | some kv => some kv.2
  | none => none

/-- Assignment `env[k] = v` on a copy of the environment dictionary: overwrite the
existing binding in place, or append a new one. -/
def setEnv (env : List (String × String)) (k v : String) :
    List (String × String) :=
  if env.any (fun kv => kv.1 == k) then
    env.map (fun kv => if kv.1 == k then (kv.1, v) else kv)
  else
    env ++ [(k, v)]

/-- Result of attempting to launch a subprocess. -/
inductive SpawnRes where
  | launched (code : Nat) : SpawnRes
  | noExec : SpawnRes
deriving DecidableEq, Repr

/-- Model of `subprocess.run(argv, ...)`: raises `FileNotFoundError` when the
executable (argv[0]) does not exist, otherwise blocks and yields the
child's exit status. -/
def runSpawn (w : World) (fs : FS) (argv : List String) : SpawnRes :=
  if fs (argv.headD "") then .launched (w.spawnCode argv) else .noExec

-- ================= 配置 (configuration constants) =================

def VENV_DIR_NAME : String := ".venv"
def REQUIREMENTS_FILE : String := "requirements.txt"
def REQUIRED_IMPORTS : List String := ["rich", "tomli"]
def REQUIRED_PACKAGES : List String := ["rich", "tomli"]

/-- Path join, modelling `Path.__truediv__`. -/
def pjoin (a b : String) : String := a ++ "/" ++ b

/-- Function `get_venv_paths(root_dir)`: (venv_dir, python_executable, pip_executable),
with the platform branch on `sys.platform == "win32"`. -/
def get_venv_paths (rootDir platform : String) : String × String × String :=
  let venvDir := pjoin rootDir VENV_DIR_NAME
  if platform = "win32" then
    (venvDir, pjoin (pjoin venvDir "Scripts") "python.exe",
      pjoin (pjoin venvDir "Scripts") "pip.exe")
  else
    (venvDir, pjoin (pjoin venvDir "bin") "python",
      pjoin (pjoin venvDir "bin") "pip")

/-- The inline check script `"import rich; import tomli"` built at line 35. -/
def checkScript : String :=
  String.intercalate "; " (REQUIRED_IMPORTS.map (fun pkg => "import " ++ pkg))

/-- Function `check_venv_integrity(python_executable)`: returns unsatisfied without
spawning when the interpreter path does not exist; otherwise runs
`python -c <checkScript>` with stdout/stderr sent to DEVNULL and
`check=True`, catching only `CalledProcessError`. -/
def check_venv_integrity (w : World) (fs : FS) (pythonExe : String) :
    Outcome Bool × List Effect :=
  if fs pythonExe = false then
    (.ret false, [.stat pythonExe])
  else
    let argvv := [pythonExe, "-c", checkScript]
    match runSpawn w fs argvv with
    | .noExec =>
        (.uncaught (.osError pythonExe), [.stat pythonExe])
    | .launched code =>
        if code = 0 then
          (.ret true, [.stat pythonExe, .spawn argvv none true])
        else
          (.ret false, [.stat pythonExe, .spawn argvv none true])

/-- Model of `venv.create(venv_dir, with_pip=True)`: after creation the directory and
its interpreter and pip executables exist. -/
def venvCreate (fs : FS) (dir pyExe pipExe : String) : FS :=
  fun p => if p == dir || p == pyExe || p == pipExe then true else fs p

def creatingMsg (dir : String) : String :=
  "[Bootstrap] Creating virtual environment at: " ++ dir ++ "..."

/-- Function `create_venv_if_missing(venv_dir)`. The interpreter/pip paths are
the ones `venv.create` materialises inside the directory. -/
def create_venv_if_missing (fs : FS) (venvDir pyExe pipExe : String) :
    FS × List Effect :=
  if fs venvDir = false then
    (venvCreate fs venvDir pyExe pipExe,
      [.stat venvDir, .printOut (creatingMsg venvDir), .createVenv venvDir])
  else
    (fs, [.stat venvDir])

def installMsg : String := "[Bootstrap] Installing dependencies..."
def installErrMsg : String := "[Bootstrap] Error: Failed to install dependencies."
def mirrorIndexURL : String := "https://pypi.tuna.tsinghua.edu.cn/simple"

/-- The fixed base command of line 56: pip, `install`, version-check
suppression, and the fixed index mirror. -/
def baseCmd (pipExe : String) : List String :=
  [pipExe, "install", "--disable-pip-version-check", "-i", mirrorIndexURL]

/-- The pip command line chosen at lines 60–63: install from the manifest
when it exists under the root, otherwise install the hardcoded package
list; both extend the fixed base command. -/
def installCmd (fs : FS) (rootDir pipExe : String) : List String :=
  if fs (pjoin rootDir REQUIREMENTS_FILE) then
    baseCmd pipExe ++ ["-r", pjoin rootDir REQUIREMENTS_FILE]
  else
    baseCmd pipExe ++ REQUIRED_PACKAGES

/-- Function `install_dependencies(root_dir, pip_executable)`: installs from the
manifest when it exists, otherwise the hardcoded package list; a
`CalledProcessError` from pip is caught, reported on stderr, and the
process exits with status 1. An `OSError` from the launch is not caught. -/
def install_dependencies (w : World) (fs : FS) (rootDir pipExe : String) :
    Outcome Unit × List Effect :=
  let reqPath := pjoin rootDir REQUIREMENTS_FILE
  let cmd := installCmd fs rootDir pipExe
  match runSpawn w fs cmd with
  | .noExec =>
      (.uncaught (.osError pipExe), [.printOut installMsg, .stat reqPath])
  | .launched code =>
      if code = 0 then
        (.ret (), [.printOut installMsg, .stat reqPath, .spawn cmd none false])
      else
        (.exited 1,
          [.printOut installMsg, .stat reqPath, .spawn cmd none false,
            .printErr installErrMsg])

/-- Function `restart_in_venv(python_executable)`. On win32 the child is spawned
with the marker-augmented environment and `check=True`, then `sys.exit(0)`.
On other platforms `os.execv` is used; `os.execv` takes no environment
argument, so the replaced image inherits the process's actual `os.environ`
— the locally built copy holding the marker is discarded. -/
def restart_in_venv (w : World) (fs : FS) (pythonExe : String) :
    Outcome Unit × List Effect :=
  let env2 := setEnv w.environ "GRADER_BOOTSTRAPPED" "1"
  let args := pythonExe :: w.argv
  if w.platform = "win32" then
    match runSpawn w fs args with
    | .noExec => (.uncaught (.osError pythonExe), [])
    | .launched code =>
        if code = 0 then
          (.exited 0, [.spawn args (some env2) false])
        else
          (.uncaught (.calledProcessError code args),
            [.spawn args (some env2) false])
  else
    if fs pythonExe then
      (.execed pythonExe args w.environ, [])
    else
      (.uncaught (.osError pythonExe), [])

/-- Result of the fast-path import loop. -/
inductive FastRes where
  | allOk : FastRes
  | importFailed (pkg : String) : FastRes
  | raised (pkg : String) (name : String) : FastRes
deriving DecidableEq, Repr

/-- The `for pkg in REQUIRED_IMPORTS: __import__(pkg)` loop; the second
component lists the packages whose import was attempted, in order. -/
def tryImports (imp : String → ImpRes) : List String → FastRes × List String
  | [] => (.allOk, [])
  | p :: ps =>
      match imp p with
      | .ok =>
          let r := tryImports imp ps
          (r.1, p :: r.2)
      | .importError => (.importFailed p, [p])
      | .raising n => (.raised p n, [p])

def repairMsg : String := "[Bootstrap] In venv but dependencies missing. Repairing..."

/-- Lines 89–110 of `initialize` (after the fast path has failed with an
`ImportError`): marker check, repair path, or provision / verify /
maybe-install / handoff. -/
def bootSlow (w : World) (fs : FS) : Outcome Unit × List Effect :=
  let ps := get_venv_paths w.rootDir w.platform
  let venvDir := ps.1
  let venvPython := ps.2.1
  let venvPip := ps.2.2
  if getEnv w.environ "GRADER_BOOTSTRAPPED" = some "1" then
    let ir := install_dependencies w fs w.rootDir venvPip
    (ir.1, Effect.printOut repairMsg :: ir.2)
  else
    let cv := create_venv_if_missing fs venvDir venvPython venvPip
    let fs2 := cv.1
    let ck := check_venv_integrity w fs2 venvPython
    match ck.1 with
    | .ret true =>
        let rr := restart_in_venv w fs2 venvPython
        (rr.1, cv.2 ++ ck.2 ++ rr.2)
    | .ret false =>
        let ir := install_dependencies w fs2 w.rootDir venvPip
        match ir.1 with
        | .ret _ =>
            let rr := restart_in_venv w fs2 venvPython
            (rr.1, cv.2 ++ ck.2 ++ ir.2 ++ rr.2)
        | .exited n => (.exited n, cv.2 ++ ck.2 ++ ir.2)
        | .execed p a e => (.execed p a e, cv.2 ++ ck.2 ++ ir.2)
        | .uncaught e => (.uncaught e, cv.2 ++ ck.2 ++ ir.2)
    | .exited n => (.exited n, cv.2 ++ ck.2)
    | .execed p a e => (.execed p a e, cv.2 ++ ck.2)
    | .uncaught e => (.uncaught e, cv.2 ++ ck.2)

/-- Orchestrator `initialize()`: fast-path import check, then the slow path. Only
`ImportError` is caught; any other exception from an import propagates. -/
def bootInit (w : World) (fs : FS) : Outcome Unit × List Effect :=
  let r := tryImports w.importRes REQUIRED_IMPORTS
  let impEffs := r.2.map Effect.importAttempt
  match r.1 with
  | .allOk => (.ret (), impEffs)
  | .raised p n => (.uncaught (.otherError p n), impEffs)
  | .importFailed _ =>
      let s := bootSlow w fs
      (s.1, impEffs ++ s.2)

-- ================= trace observers =================

/-- An invocation of `install_dependencies` is witnessed by its unique
opening progress line. -/
def isInstallerCall : Effect → Bool
  | .printOut m => m == installMsg
  | _ => false

def countInstall (tr : List Effect) : Nat := (tr.filter isInstallerCall).length

def isCreateEff : Effect → Bool
  | .createVenv _ => true
  | _ => false

def isSpawnEff : Effect → Bool
  | .spawn _ _ _ => true
  | _ => false

/-- A handoff child spawn is the only spawn that passes an explicit
environment. -/
def isHandoffSpawn : Effect → Bool
  | .spawn _ (some _) _ => true
  | _ => false

/-- The integrity check is the only spawn discarding both streams. -/
def isIntegritySpawn : Effect → Bool
  | .spawn _ _ true => true
  | _ => false

def isStatOf (path : String) : Effect → Bool
  | .stat p => p == path
  | _ => false

/-- A process handoff occurred: either a marker-environment child spawn
appears in the trace (win32), or the outcome is a process replacement. -/
def handoffHappened (o : Outcome Unit) (tr : List Effect) : Bool :=
  tr.any isHandoffSpawn ||
    (match o with
      | .execed _ _ _ => true
      | _ => false)

def isStatEff : Effect → Bool
  | .stat _ => true
  | _ => false

def isPrintErr : Effect → Bool
  | .printErr _ => true
  | _ => false

-- ================= concrete sample inputs (used by witnesses) =================

/-- Filesystem on which no path exists. -/
def fsNone : FS := fun _ => false

/-- Filesystem on which every path exists. -/
def fsAll : FS := fun _ => true

/-- A POSIX world whose in-process imports all fail with `ImportError` and
whose subprocesses all exit 0. -/
def wPosix : World :=
  { platform := "linux"
    argv := ["bootstrap.py", "--all"]
    environ := [("PATH", "/usr/bin")]
    rootDir := "/repo"
    importRes := fun _ => ImpRes.importError
    spawnCode := fun _ => 0 }

/-- A win32 world whose subprocesses all exit 1. -/
def wWinFail : World :=
  { wPosix with platform := "win32", spawnCode := fun _ => 1 }

/-- The venv interpreter path of `wPosix` / `wWinFail` on win32. -/
def pyWin : String := (get_venv_paths "/repo" "win32").2.1

/-- The venv interpreter path on POSIX. -/
def pyNix : String := (get_venv_paths "/repo" "linux").2.1

/-- A world already inside the venv: the re-entrancy marker is set. -/
def wRepair : World :=
  { wPosix with environ := [("PATH", "/usr/bin"), ("GRADER_BOOTSTRAPPED", "1")] }

/-- The venv directory `get_venv_paths` derives for a world. -/
def venvDirOf (w : World) : String := (get_venv_paths w.rootDir w.platform).1

/-- The venv interpreter path `get_venv_paths` derives for a world. -/
def venvPythonOf (w : World) : String := (get_venv_paths w.rootDir w.platform).2.1

/-- The venv pip path `get_venv_paths` derives for a world. -/
def venvPipOf (w : World) : String := (get_venv_paths w.rootDir w.platform).2.2

/-- The filesystem after `create_venv_if_missing` has run on the slow path. -/
def provisionedFS (w : World) (fs : FS) : FS :=
  (create_venv_if_missing fs (venvDirOf w) (venvPythonOf w) (venvPipOf w)).1

-- ================= helper lemmas =================

theorem installCmd_headD (fs : FS) (root pipExe : String) :
    (installCmd fs root pipExe).headD "" = pipExe := by
  unfold installCmd baseCmd
  split <;> rfl

theorem check_ret_true_exists (w : World) (fs : FS) (py : String)
    (h : (check_venv_integrity w fs py).1 = .ret true) : fs py = true := by
  by_cases hex : fs py = true
  · exact hex
  · exfalso
    have hf : fs py = false := by
      revert hex
      cases fs py <;> simp
    simp [check_venv_integrity, hf] at h

theorem check_ret_true_code (w : World) (fs : FS) (py : String)
    (h : (check_venv_integrity w fs py).1 = .ret true) :
    w.spawnCode [py, "-c", checkScript] = 0 := by
  have hex : fs py = true := check_ret_true_exists w fs py h
  by_cases hc : w.spawnCode [py, "-c", checkScript] = 0
  · exact hc
  · exfalso
    have hrun : runSpawn w fs [py, "-c", checkScript] =
        .launched (w.spawnCode [py, "-c", checkScript]) := by
      simp [runSpawn, List.headD, hex]
    simp [check_venv_integrity, hex, hrun, hc] at h

-- ================= C4 =================

/-- C4: `check_venv_integrity` returns unsatisfied without spawning any
subprocess whenever the interpreter path does not exist; when it exists,
it spawns that interpreter once with the inline import command over every
required capability, discards both output streams, and returns satisfied
exactly when the subprocess exit status is zero. -/
theorem C4_check_venv_integrity_spec (w : World) (fs : FS) (py : String) :
    (fs py = false → check_venv_integrity w fs py = (.ret false, [.stat py])) ∧
    (fs py = true →
      check_venv_integrity w fs py =
        (.ret (decide (w.spawnCode [py, "-c", checkScript] = 0)),
          [.stat py, .spawn [py, "-c", checkScript] none true])) := by
  constructor
  · intro h
    simp [check_venv_integrity, h]
  · intro h
    have hrun : runSpawn w fs [py, "-c", checkScript] =
        .launched (w.spawnCode [py, "-c", checkScript]) := by
      simp [runSpawn, List.headD, h]
    by_cases hc : w.spawnCode [py, "-c", checkScript] = 0 <;>
      simp [check_venv_integrity, h, hrun, hc]

/-- Witness for C4 at a missing and at an existing interpreter path. -/
theorem C4_check_venv_integrity_spec_witness :
    (fsNone "/venv/py" = false ∧
      check_venv_integrity wPosix fsNone "/venv/py" =
        (.ret false, [.stat "/venv/py"])) ∧
    (fsAll "/venv/py" = true ∧
      check_venv_integrity wPosix fsAll "/venv/py" =
        (.ret (decide (wPosix.spawnCode ["/venv/py", "-c", checkScript] = 0)),
          [.stat "/venv/py", .spawn ["/venv/py", "-c", checkScript] none true])) :=
  ⟨⟨rfl, (C4_check_venv_integrity_spec wPosix fsNone "/venv/py").1 rfl⟩,
    ⟨rfl, (C4_check_venv_integrity_spec wPosix fsAll "/venv/py").2 rfl⟩⟩

-- ================= C7 =================

/-- C7: `create_venv_if_missing` on an already-existing directory is a
no-op: the filesystem is returned unchanged, no creation effect and no
error occur, and the only path examined is the directory itself. -/
theorem C7_create_venv_idempotent (fs : FS) (d py pip : String)
    (h : fs d = true) :
    create_venv_if_missing fs d py pip = (fs, [.stat d]) := by
  simp [create_venv_if_missing, h]

/-- Witness for C7 on a filesystem where the venv directory exists. -/
theorem C7_create_venv_idempotent_witness :
    fsAll "/repo/.venv" = true ∧
    create_venv_if_missing fsAll "/repo/.venv" pyNix "/repo/.venv/bin/pip" =
      (fsAll, [.stat "/repo/.venv"]) :=
  ⟨rfl, C7_create_venv_idempotent fsAll "/repo/.venv" pyNix "/repo/.venv/bin/pip" rfl⟩

-- ================= C5 =================

/-- C5: `install_dependencies` spawns the package manager exactly once,
with the manifest command when the manifest exists and the hardcoded
package command otherwise (both carrying the fixed base flags, see
`installCmd` and `baseCmd`); and when pip exits non-zero it prints a
diagnostic to stderr and exits the process with status 1 — one spawn
only, no retry and no fallback invocation. -/
theorem C5_install_dependencies_spec (w : World) (fs : FS)
    (root pipExe : String) (hp : fs pipExe = true) :
    ((install_dependencies w fs root pipExe).2.filter isSpawnEff =
      [.spawn (installCmd fs root pipExe) none false]) ∧
    (w.spawnCode (installCmd fs root pipExe) ≠ 0 →
      install_dependencies w fs root pipExe =
        (.exited 1,
          [.printOut installMsg, .stat (pjoin root REQUIREMENTS_FILE),
            .spawn (installCmd fs root pipExe) none false,
            .printErr installErrMsg])) := by
  have hrun : runSpawn w fs (installCmd fs root pipExe) =
      .launched (w.spawnCode (installCmd fs root pipExe)) := by
    simp only [runSpawn, installCmd_headD, hp]
    simp
  constructor
  · by_cases hc : w.spawnCode (installCmd fs root pipExe) = 0 <;>
      simp [install_dependencies, hrun, hc, isSpawnEff]
  · intro hc
    simp [install_dependencies, hrun, hc]

/-- Witness for C5: pip exists, the manifest exists, pip exits 1. -/
theorem C5_install_dependencies_spec_witness :
    fsAll "/repo/.venv/bin/pip" = true ∧
    wWinFail.spawnCode (installCmd fsAll "/repo" "/repo/.venv/bin/pip") ≠ 0 ∧
    install_dependencies wWinFail fsAll "/repo" "/repo/.venv/bin/pip" =
      (.exited 1,
        [.printOut installMsg, .stat (pjoin "/repo" REQUIREMENTS_FILE),
          .spawn (installCmd fsAll "/repo" "/repo/.venv/bin/pip") none false,
          .printErr installErrMsg]) :=
  ⟨rfl, by decide,
    (C5_install_dependencies_spec wWinFail fsAll "/repo" "/repo/.venv/bin/pip"
      rfl).2 (by decide)⟩

-- ================= C1 =================

/-- C1 counterexample: on win32 with the child exiting 1, the parent does
not terminate with status 0 — `subprocess.run(..., check=True)` raises
`CalledProcessError`, which propagates unhandled. -/
theorem C1_counterexample_child_nonzero :
    wWinFail.platform = "win32" ∧
    wWinFail.spawnCode (pyWin :: wWinFail.argv) = 1 ∧
    (restart_in_venv wWinFail fsAll pyWin).1 ≠ .exited 0 ∧
    (restart_in_venv wWinFail fsAll pyWin).1 =
      .uncaught (.calledProcessError 1 (pyWin :: wWinFail.argv)) := by
  refine ⟨rfl, rfl, ?_, rfl⟩
  decide

/-- C1 amended: on win32 the parent blocks on the spawned child and exits
with status 0 exactly when the child exits 0; a non-zero child status
raises `CalledProcessError` (uncaught), so the parent does not exit 0. -/
theorem C1_amended_spawn_wait_exit (w : World) (fs : FS) (py : String)
    (hwin : w.platform = "win32") (hex : fs py = true) :
    restart_in_venv w fs py =
      ((if w.spawnCode (py :: w.argv) = 0 then (.exited 0 : Outcome Unit)
        else .uncaught
          (.calledProcessError (w.spawnCode (py :: w.argv)) (py :: w.argv))),
        [.spawn (py :: w.argv)
          (some (setEnv w.environ "GRADER_BOOTSTRAPPED" "1")) false]) := by
  have hrun : runSpawn w fs (py :: w.argv) =
      .launched (w.spawnCode (py :: w.argv)) := by
    simp [runSpawn, List.headD, hex]
  by_cases hc : w.spawnCode (py :: w.argv) = 0 <;>
    simp [restart_in_venv, hwin, hrun, hc]

/-- Witness for C1 amended: child exits 0, the parent exits 0. -/
theorem C1_amended_spawn_wait_exit_witness :
    ({ wWinFail with spawnCode := fun _ => 0 } : World).platform = "win32" ∧
    fsAll pyWin = true ∧
    restart_in_venv { wWinFail with spawnCode := fun _ => 0 } fsAll pyWin =
      ((if ({ wWinFail with spawnCode := fun _ => 0 } : World).spawnCode
            (pyWin :: ({ wWinFail with spawnCode := fun _ => 0 } : World).argv) = 0
        then (.exited 0 : Outcome Unit)
        else .uncaught
          (.calledProcessError
            (({ wWinFail with spawnCode := fun _ => 0 } : World).spawnCode
              (pyWin :: ({ wWinFail with spawnCode := fun _ => 0 } : World).argv))
            (pyWin :: ({ wWinFail with spawnCode := fun _ => 0 } : World).argv))),
        [.spawn (pyWin :: ({ wWinFail with spawnCode := fun _ => 0 } : World).argv)
          (some (setEnv ({ wWinFail with spawnCode := fun _ => 0 } : World).environ
            "GRADER_BOOTSTRAPPED" "1")) false]) :=
  ⟨rfl, rfl,
    C1_amended_spawn_wait_exit { wWinFail with spawnCode := fun _ => 0 }
      fsAll pyWin rfl rfl⟩

-- ================= C6 =================

/-- C6: on a POSIX platform the handoff goes through `os.execv`, which
takes no environment argument — the replaced image receives the process's
actual (unmodified) environment, in which `GRADER_BOOTSTRAPPED` is absent,
even though the marker-augmented copy built two lines earlier would have
carried it. The argument vector is preserved. Evaluated at a concrete
failing input (platform "linux"). -/
theorem C6_execv_drops_marker :
    wPosix.platform ≠ "win32" ∧
    restart_in_venv wPosix fsAll pyNix =
      (.execed pyNix (pyNix :: wPosix.argv) wPosix.environ, []) ∧
    getEnv wPosix.environ "GRADER_BOOTSTRAPPED" = none ∧
    getEnv (setEnv wPosix.environ "GRADER_BOOTSTRAPPED" "1")
      "GRADER_BOOTSTRAPPED" = some "1" := by
  refine ⟨?_, rfl, rfl, rfl⟩
  decide

-- ================= orchestrator helper lemmas =================

theorem tryImports_allOk (imp : String → ImpRes) (l : List String)
    (h : ∀ p ∈ l, imp p = .ok) : tryImports imp l = (.allOk, l) := by
  induction l with
  | nil => rfl
  | cons p ps ih =>
      have hp : imp p = .ok := h p (by simp)
      have hps := ih (fun q hq => h q (by simp [hq]))
      simp [tryImports, hp, hps]

theorem countInstall_append (a b : List Effect) :
    countInstall (a ++ b) = countInstall a + countInstall b := by
  simp [countInstall, List.filter_append]

theorem importEffs_clean (l : List String) (s : String) :
    countInstall (l.map Effect.importAttempt) = 0 ∧
    (l.map Effect.importAttempt).any isSpawnEff = false ∧
    (l.map Effect.importAttempt).any isCreateEff = false ∧
    (l.map Effect.importAttempt).any isHandoffSpawn = false ∧
    (l.map Effect.importAttempt).any isIntegritySpawn = false ∧
    (l.map Effect.importAttempt).any isPrintErr = false ∧
    (l.map Effect.importAttempt).all
      (fun e => !(isStatEff e) || isStatOf s e) = true := by
  induction l with
  | nil => simp [countInstall]
  | cons p ps ih =>
      obtain ⟨h1, h2, h3, h4, h5, h6, h7⟩ := ih
      refine ⟨?_, ?_, ?_, ?_, ?_, ?_, ?_⟩ <;>
        simp [countInstall, isInstallerCall, isSpawnEff, isCreateEff,
          isHandoffSpawn, isIntegritySpawn, isPrintErr, isStatEff,
          List.filter_cons, h2, h3, h4, h5, h6, h7]

theorem repairMsg_not_installMsg : repairMsg ≠ installMsg := by
  decide

theorem creatingMsg_ne_installMsg (d : String) :
    creatingMsg d ≠ installMsg := by
  intro h
  have hlen : (creatingMsg d).length = installMsg.length := congrArg String.length h
  rw [creatingMsg, String.length_append, String.length_append] at hlen
  have h1 : ("[Bootstrap] Creating virtual environment at: " : String).length = 45 := by decide
  have h2 : ("..." : String).length = 3 := by decide
  have h3 : installMsg.length = 38 := by decide
  omega

theorem install_effects_shape (w : World) (fs : FS) (root pipExe : String) :
    countInstall (install_dependencies w fs root pipExe).2 = 1 ∧
    (install_dependencies w fs root pipExe).2.any isHandoffSpawn = false ∧
    (install_dependencies w fs root pipExe).2.any isCreateEff = false ∧
    (install_dependencies w fs root pipExe).2.any isIntegritySpawn = false ∧
    (install_dependencies w fs root pipExe).2.all
      (fun e => !(isStatEff e) || isStatOf (pjoin root REQUIREMENTS_FILE) e)
        = true ∧
    ((install_dependencies w fs root pipExe).1 = .ret () ∨
      (install_dependencies w fs root pipExe).1 = .exited 1 ∨
      (install_dependencies w fs root pipExe).1 = .uncaught (.osError pipExe)) := by
  unfold install_dependencies
  cases hr : runSpawn w fs (installCmd fs root pipExe) with
  | launched code =>
      by_cases hc : code = 0 <;>
        simp [hr, hc, countInstall, isInstallerCall, isHandoffSpawn,
          isCreateEff, isIntegritySpawn, isStatEff, isStatOf, List.filter_cons]
  | noExec =>
      simp [hr, countInstall, isInstallerCall, isHandoffSpawn, isCreateEff,
        isIntegritySpawn, isStatEff, isStatOf, List.filter_cons]

theorem install_no_exec (w : World) (fs : FS) (root pipExe : String)
    (hp : fs pipExe = false) :
    install_dependencies w fs root pipExe =
      (.uncaught (.osError pipExe),
        [.printOut installMsg, .stat (pjoin root REQUIREMENTS_FILE)]) := by
  have hrun : runSpawn w fs (installCmd fs root pipExe) = .noExec := by
    simp only [runSpawn, installCmd_headD, hp]
    simp
  simp [install_dependencies, hrun]

theorem check_trace_clean (w : World) (fs : FS) (py : String) :
    countInstall (check_venv_integrity w fs py).2 = 0 ∧
    (check_venv_integrity w fs py).2.any isHandoffSpawn = false ∧
    (check_venv_integrity w fs py).2.any isCreateEff = false ∧
    (check_venv_integrity w fs py).2.any isPrintErr = false := by
  unfold check_venv_integrity
  by_cases hex : fs py = false
  · simp [hex, countInstall, isInstallerCall, isHandoffSpawn, isCreateEff,
      isPrintErr]
  · cases hr : runSpawn w fs [py, "-c", checkScript] with
    | launched code =>
        by_cases hc : code = 0 <;>
          simp [hex, hr, hc, countInstall, isInstallerCall, isHandoffSpawn,
            isCreateEff, isPrintErr, List.filter_cons]
    | noExec =>
        simp [hex, hr, countInstall, isInstallerCall, isHandoffSpawn,
          isCreateEff, isPrintErr, List.filter_cons]

theorem provision_trace_clean (fs : FS) (venvDir pyExe pipExe : String) :
    countInstall (create_venv_if_missing fs venvDir pyExe pipExe).2 = 0 ∧
    (create_venv_if_missing fs venvDir pyExe pipExe).2.any isHandoffSpawn
      = false ∧
    (create_venv_if_missing fs venvDir pyExe pipExe).2.any isPrintErr
      = false := by
  unfold create_venv_if_missing
  by_cases hex : fs venvDir = false <;>
    simp [hex, countInstall, isInstallerCall, isHandoffSpawn, isPrintErr,
      List.filter_cons, creatingMsg_ne_installMsg venvDir]

theorem restart_handoff_occurs (w : World) (fs : FS) (py : String)
    (hex : fs py = true) :
    handoffHappened (restart_in_venv w fs py).1 (restart_in_venv w fs py).2
      = true ∧
    countInstall (restart_in_venv w fs py).2 = 0 ∧
    (restart_in_venv w fs py).2.any isCreateEff = false := by
  unfold restart_in_venv
  by_cases hwin : w.platform = "win32"
  · have hrun : runSpawn w fs (py :: w.argv) =
        .launched (w.spawnCode (py :: w.argv)) := by
      simp [runSpawn, List.headD, hex]
    by_cases hc : w.spawnCode (py :: w.argv) = 0 <;>
      simp [hwin, hrun, hc, handoffHappened, isHandoffSpawn, countInstall,
        isInstallerCall, isCreateEff, List.filter_cons]
  · simp [hwin, hex, handoffHappened, countInstall]

theorem bootInit_slow (w : World) (fs : FS) (p : String)
    (hf : (tryImports w.importRes REQUIRED_IMPORTS).1 = .importFailed p) :
    bootInit w fs =
      ((bootSlow w fs).1,
        (tryImports w.importRes REQUIRED_IMPORTS).2.map Effect.importAttempt
          ++ (bootSlow w fs).2) := by
  simp only [bootInit]
  rw [hf]

theorem bootSlow_repair (w : World) (fs : FS)
    (hm : getEnv w.environ "GRADER_BOOTSTRAPPED" = some "1") :
    bootSlow w fs =
      ((install_dependencies w fs w.rootDir (venvPipOf w)).1,
        Effect.printOut repairMsg ::
          (install_dependencies w fs w.rootDir (venvPipOf w)).2) := by
  simp only [bootSlow, venvPipOf]
  rw [if_pos hm]

theorem bootSlow_verified (w : World) (fs : FS)
    (hm : ¬ getEnv w.environ "GRADER_BOOTSTRAPPED" = some "1")
    (hv : (check_venv_integrity w (provisionedFS w fs) (venvPythonOf w)).1
      = .ret true) :
    bootSlow w fs =
      ((restart_in_venv w (provisionedFS w fs) (venvPythonOf w)).1,
        (create_venv_if_missing fs (venvDirOf w) (venvPythonOf w)
            (venvPipOf w)).2
          ++ (check_venv_integrity w (provisionedFS w fs) (venvPythonOf w)).2
          ++ (restart_in_venv w (provisionedFS w fs) (venvPythonOf w)).2) := by
  have hv2 := hv
  simp only [provisionedFS, venvPythonOf, venvDirOf, venvPipOf] at hv2
  simp only [bootSlow, venvDirOf, venvPythonOf, venvPipOf, provisionedFS]
  rw [if_neg hm, hv2]

-- ================= C8 =================

/-- C8: when every required capability imports in the current process, the
orchestrator returns at once having performed zero filesystem writes and
spawned zero subprocesses — its whole trace is the import attempts. -/
theorem C8_fast_path_no_side_effects (w : World) (fs : FS)
    (h : ∀ p ∈ REQUIRED_IMPORTS, w.importRes p = .ok) :
    bootInit w fs = (.ret (), REQUIRED_IMPORTS.map Effect.importAttempt) ∧
    (bootInit w fs).2.any isSpawnEff = false ∧
    (bootInit w fs).2.any isCreateEff = false := by
  have ht := tryImports_allOk w.importRes REQUIRED_IMPORTS h
  have h1 : bootInit w fs = (.ret (), REQUIRED_IMPORTS.map Effect.importAttempt) := by
    simp only [bootInit, ht]
  refine ⟨h1, ?_, ?_⟩ <;> rw [h1]
  · exact (importEffs_clean REQUIRED_IMPORTS "").2.1
  · exact (importEffs_clean REQUIRED_IMPORTS "").2.2.1

/-- Witness for C8: a world where both imports succeed. -/
theorem C8_fast_path_no_side_effects_witness :
    (∀ p ∈ REQUIRED_IMPORTS,
      ({ wPosix with importRes := fun _ => ImpRes.ok } : World).importRes p
        = .ok) ∧
    bootInit { wPosix with importRes := fun _ => ImpRes.ok } fsNone =
      (.ret (), REQUIRED_IMPORTS.map Effect.importAttempt) :=
  ⟨fun _ _ => rfl,
    (C8_fast_path_no_side_effects { wPosix with importRes := fun _ => ImpRes.ok }
      fsNone (fun _ _ => rfl)).1⟩

-- ================= C9 =================

/-- C9: if the fast-path loop stops on an exception other than
`ImportError`, the orchestrator propagates it unhandled — it does not
reach the repair or provisioning paths (no installer call, no spawn, no
creation effect). -/
theorem C9_non_importerror_propagates (w : World) (fs : FS) (p n : String)
    (h : (tryImports w.importRes REQUIRED_IMPORTS).1 = .raised p n) :
    (bootInit w fs).1 = .uncaught (.otherError p n) ∧
    countInstall (bootInit w fs).2 = 0 ∧
    (bootInit w fs).2.any isSpawnEff = false ∧
    (bootInit w fs).2.any isCreateEff = false := by
  have h1 : bootInit w fs =
      (.uncaught (.otherError p n),
        (tryImports w.importRes REQUIRED_IMPORTS).2.map Effect.importAttempt) := by
    simp only [bootInit]
    rw [h]
  rw [h1]
  have hc := importEffs_clean (tryImports w.importRes REQUIRED_IMPORTS).2 ""
  exact ⟨rfl, hc.1, hc.2.1, hc.2.2.1⟩

/-- Witness for C9: importing "rich" raises a RuntimeError. -/
theorem C9_non_importerror_propagates_witness :
    (tryImports
      ({ wPosix with importRes := fun q =>
        if q == "rich" then ImpRes.raising "RuntimeError" else ImpRes.ok } : World).importRes
      REQUIRED_IMPORTS).1 = .raised "rich" "RuntimeError" ∧
    (bootInit
      { wPosix with importRes := fun q =>
        if q == "rich" then ImpRes.raising "RuntimeError" else ImpRes.ok }
      fsAll).1 = .uncaught (.otherError "rich" "RuntimeError") :=
  ⟨rfl,
    (C9_non_importerror_propagates
      { wPosix with importRes := fun q =>
        if q == "rich" then ImpRes.raising "RuntimeError" else ImpRes.ok }
      fsAll "rich" "RuntimeError" rfl).1⟩

theorem countInstall_cons_false (e : Effect) (l : List Effect)
    (he : isInstallerCall e = false) :
    countInstall (e :: l) = countInstall l := by
  simp [countInstall, List.filter_cons, he]

theorem isInstallerCall_repair :
    isInstallerCall (Effect.printOut repairMsg) = false := by
  decide

-- ================= C2 =================

/-- C2: when the fast path fails with `ImportError` and the re-entrancy
marker is set, the orchestrator invokes the dependency installer exactly
once (one opening installer line in the trace), performs no handoff, no
environment provisioning and no integrity verification (no creation
effect, no stream-discarding spawn, and the only path examined is the
manifest file), and returns normally as soon as the installer does. -/
theorem C2_repair_in_place (w : World) (fs : FS) (p : String)
    (hf : (tryImports w.importRes REQUIRED_IMPORTS).1 = .importFailed p)
    (hm : getEnv w.environ "GRADER_BOOTSTRAPPED" = some "1") :
    countInstall (bootInit w fs).2 = 1 ∧
    handoffHappened (bootInit w fs).1 (bootInit w fs).2 = false ∧
    (bootInit w fs).2.any isCreateEff = false ∧
    (bootInit w fs).2.any isIntegritySpawn = false ∧
    (bootInit w fs).2.all
      (fun e => !(isStatEff e) || isStatOf (pjoin w.rootDir REQUIREMENTS_FILE) e)
        = true ∧
    ((install_dependencies w fs w.rootDir (venvPipOf w)).1 = .ret () →
      (bootInit w fs).1 = .ret ()) := by
  have hb := bootInit_slow w fs p hf
  have hs := bootSlow_repair w fs hm
  rw [hs] at hb
  have h1o : (bootInit w fs).1 =
      (install_dependencies w fs w.rootDir (venvPipOf w)).1 := by rw [hb]
  have h2o : (bootInit w fs).2 =
      (tryImports w.importRes REQUIRED_IMPORTS).2.map Effect.importAttempt
        ++ (Effect.printOut repairMsg ::
          (install_dependencies w fs w.rootDir (venvPipOf w)).2) := by rw [hb]
  obtain ⟨s1, s2, s3, s4, s5, s6⟩ :=
    install_effects_shape w fs w.rootDir (venvPipOf w)
  obtain ⟨a1, a2, a3, a4, a5, a6, a7⟩ :=
    importEffs_clean (tryImports w.importRes REQUIRED_IMPORTS).2
      (pjoin w.rootDir REQUIREMENTS_FILE)
  refine ⟨?_, ?_, ?_, ?_, ?_, ?_⟩
  · rw [h2o, countInstall_append, a1,
      countInstall_cons_false _ _ isInstallerCall_repair, s1]
  · rw [h1o, h2o]
    rcases s6 with h6 | h6 | h6 <;>
      simp [handoffHappened, h6, List.any_append, a4, s2, isHandoffSpawn]
  · rw [h2o]
    simp [List.any_append, a3, s3, isCreateEff]
  · rw [h2o]
    simp [List.any_append, a5, s4, isIntegritySpawn]
  · rw [h2o]
    simp only [List.all_append, List.all_cons, a7, s5]
    rfl
  · intro h
    rw [h1o, h]

/-- Witness for C2: marker set, imports failing, everything on disk. -/
theorem C2_repair_in_place_witness :
    (tryImports wRepair.importRes REQUIRED_IMPORTS).1 = .importFailed "rich" ∧
    getEnv wRepair.environ "GRADER_BOOTSTRAPPED" = some "1" ∧
    (countInstall (bootInit wRepair fsAll).2 = 1 ∧
      handoffHappened (bootInit wRepair fsAll).1 (bootInit wRepair fsAll).2
        = false ∧
      (bootInit wRepair fsAll).2.any isCreateEff = false ∧
      (bootInit wRepair fsAll).2.any isIntegritySpawn = false ∧
      (bootInit wRepair fsAll).2.all
        (fun e => !(isStatEff e)
          || isStatOf (pjoin wRepair.rootDir REQUIREMENTS_FILE) e) = true ∧
      ((install_dependencies wRepair fsAll wRepair.rootDir
          (venvPipOf wRepair)).1 = .ret () →
        (bootInit wRepair fsAll).1 = .ret ())) :=
  ⟨rfl, rfl, C2_repair_in_place wRepair fsAll "rich" rfl rfl⟩

-- ================= C3 =================

/-- C3: when the fast path fails with `ImportError`, the marker is unset,
and the integrity verifier reports satisfied on the provisioned
filesystem, the dependency installer is never invoked, yet the process
handoff still occurs. -/
theorem C3_verified_skips_install_still_handoff (w : World) (fs : FS)
    (p : String)
    (hf : (tryImports w.importRes REQUIRED_IMPORTS).1 = .importFailed p)
    (hm : ¬ getEnv w.environ "GRADER_BOOTSTRAPPED" = some "1")
    (hv : (check_venv_integrity w (provisionedFS w fs) (venvPythonOf w)).1
      = .ret true) :
    countInstall (bootInit w fs).2 = 0 ∧
    handoffHappened (bootInit w fs).1 (bootInit w fs).2 = true := by
  have hb := bootInit_slow w fs p hf
  have hs := bootSlow_verified w fs hm hv
  rw [hs] at hb
  have hex : provisionedFS w fs (venvPythonOf w) = true :=
    check_ret_true_exists w (provisionedFS w fs) (venvPythonOf w) hv
  obtain ⟨r1, r2, r3⟩ :=
    restart_handoff_occurs w (provisionedFS w fs) (venvPythonOf w) hex
  obtain ⟨k1, k2, k3, k4⟩ :=
    check_trace_clean w (provisionedFS w fs) (venvPythonOf w)
  obtain ⟨v1, v2, v3⟩ :=
    provision_trace_clean fs (venvDirOf w) (venvPythonOf w) (venvPipOf w)
  obtain ⟨a1, a2, a3, a4, a5, a6, a7⟩ :=
    importEffs_clean (tryImports w.importRes REQUIRED_IMPORTS).2 ""
  have h1o : (bootInit w fs).1 =
      (restart_in_venv w (provisionedFS w fs) (venvPythonOf w)).1 := by
    rw [hb]
  have h2o : (bootInit w fs).2 =
      (tryImports w.importRes REQUIRED_IMPORTS).2.map Effect.importAttempt
        ++ ((create_venv_if_missing fs (venvDirOf w) (venvPythonOf w)
            (venvPipOf w)).2
          ++ (check_venv_integrity w (provisionedFS w fs) (venvPythonOf w)).2
          ++ (restart_in_venv w (provisionedFS w fs) (venvPythonOf w)).2) := by
    rw [hb]
  constructor
  · rw [h2o, countInstall_append, countInstall_append, countInstall_append,
      a1, v1, k1, r2]
  · rw [h1o, h2o]
    simp only [handoffHappened, List.any_append, Bool.or_eq_true] at r1 ⊢
    tauto

/-- Witness for C3: marker unset, venv on disk, integrity check passes. -/
theorem C3_verified_skips_install_still_handoff_witness :
    (tryImports wPosix.importRes REQUIRED_IMPORTS).1 = .importFailed "rich" ∧
    ¬ getEnv wPosix.environ "GRADER_BOOTSTRAPPED" = some "1" ∧
    (check_venv_integrity wPosix (provisionedFS wPosix fsAll)
      (venvPythonOf wPosix)).1 = .ret true ∧
    (countInstall (bootInit wPosix fsAll).2 = 0 ∧
      handoffHappened (bootInit wPosix fsAll).1 (bootInit wPosix fsAll).2
        = true) :=
  ⟨rfl, by decide, rfl,
    C3_verified_skips_install_still_handoff wPosix fsAll "rich" rfl
      (by decide) rfl⟩

-- ================= C10 =================

/-- C10: on the repair path (marker set, fast path failed) with the pip
executable absent, the subprocess launch raises an uncaught `OSError`:
the run ends with an unhandled exception, not with the documented stderr
diagnostic and `sys.exit(1)`. -/
theorem C10_missing_pip_unhandled_oserror (w : World) (fs : FS) (p : String)
    (hf : (tryImports w.importRes REQUIRED_IMPORTS).1 = .importFailed p)
    (hm : getEnv w.environ "GRADER_BOOTSTRAPPED" = some "1")
    (hp : fs (venvPipOf w) = false) :
    (bootInit w fs).1 = .uncaught (.osError (venvPipOf w)) ∧
    (bootInit w fs).1 ≠ .exited 1 ∧
    (bootInit w fs).2.any isPrintErr = false := by
  have hb := bootInit_slow w fs p hf
  have hs := bootSlow_repair w fs hm
  rw [hs] at hb
  have hi := install_no_exec w fs w.rootDir (venvPipOf w) hp
  have h1o : (bootInit w fs).1 = .uncaught (.osError (venvPipOf w)) := by
    rw [hb, hi]
  have h2o : (bootInit w fs).2 =
      (tryImports w.importRes REQUIRED_IMPORTS).2.map Effect.importAttempt
        ++ (Effect.printOut repairMsg ::
          [.printOut installMsg, .stat (pjoin w.rootDir REQUIREMENTS_FILE)]) := by
    rw [hb, hi]
  refine ⟨h1o, ?_, ?_⟩
  · rw [h1o]
    simp
  · rw [h2o]
    have a6 := (importEffs_clean (tryImports w.importRes REQUIRED_IMPORTS).2 "").2.2.2.2.2.1
    simp [List.any_append, a6, isPrintErr]

/-- Witness for C10: marker set, empty filesystem (no pip executable). -/
theorem C10_missing_pip_unhandled_oserror_witness :
    (tryImports wRepair.importRes REQUIRED_IMPORTS).1 = .importFailed "rich" ∧
    getEnv wRepair.environ "GRADER_BOOTSTRAPPED" = some "1" ∧
    fsNone (venvPipOf wRepair) = false ∧
    (bootInit wRepair fsNone).1 = .uncaught (.osError (venvPipOf wRepair)) :=
  ⟨rfl, rfl, rfl,
    (C10_missing_pip_unhandled_oserror wRepair fsNone "rich" rfl rfl rfl).1⟩
